import Mathlib

/-!
Shallow embedding of the zircon virtio PCI transport core:
capability discovery, the Legacy/Modern register backends, and the
device lifecycle / interrupt-service logic, translated from
`system/dev/bus/virtio/backends/pci_modern.cpp`,
`system/dev/bus/virtio/backends/pci_legacy.cpp` and the virtio
`device.cpp` sources (pre- and post-refactor).
-/

namespace virtio

/-! ## Wire and status constants

The zircon status codes are fixed numeric values from `zircon/errors.h`.
The virtio wire constants (status bits, ISR bits, capability config-type
codes, legacy register offsets) live in the external `virtio/virtio.h`
header; their numeric values come from the virtio 1.0 wire specification.
-/

def ZX_OK : Int := 0
def ZX_ERR_NOT_SUPPORTED : Int := -2
def ZX_ERR_INVALID_ARGS : Int := -10
def ZX_ERR_WRONG_TYPE : Int := -12
def ZX_ERR_BAD_STATE : Int := -20

def ZX_HANDLE_INVALID : Nat := 0

/-- Modelled from the spec: virtio device-status bits (wire constants from
the external transport specification, header not under src/). -/
def VIRTIO_STATUS_ACKNOWLEDGE : Nat := 1
def VIRTIO_STATUS_DRIVER : Nat := 2
def VIRTIO_STATUS_DRIVER_OK : Nat := 4
def VIRTIO_STATUS_FEATURES_OK : Nat := 8

/-- Modelled from the spec: virtio ISR-status bits (wire constants from the
external transport specification, header not under src/). -/
def VIRTIO_ISR_QUEUE_INT : Nat := 1
def VIRTIO_ISR_DEV_CFG_INT : Nat := 2

/-- Modelled from the spec: capability config-type codes for the five
capability slots (wire constants, header not under src/). -/
def VIRTIO_PCI_CAP_COMMON_CFG : Nat := 1
def VIRTIO_PCI_CAP_NOTIFY_CFG : Nat := 2
def VIRTIO_PCI_CAP_ISR_CFG : Nat := 3
def VIRTIO_PCI_CAP_DEVICE_CFG : Nat := 4
def VIRTIO_PCI_CAP_PCI_CFG : Nat := 5

/-- Modelled from the spec: legacy I/O-space register offset of the ISR
status register (wire constant, header not under src/). -/
def VIRTIO_PCI_ISR_STATUS : Nat := 0x13

/-- `PAGE_SIZE` on the platforms this driver targets. -/
def PAGE_SIZE : Nat := 4096

/-! ## 64-bit MMIO access primitives

`pci_modern.cpp` lines 32-47: a 64-bit MMIO access is performed as two
32-bit accesses through the word-addressed view of the location, low
word first.  We model word-addressed MMIO memory as `Nat → Nat` (each
cell holds a 32-bit value) and record the individual 32-bit write
transactions as a trace of (word address, value) pairs.
-/

/-- Word-addressed 32-bit MMIO memory. -/
def Mem : Type := Nat → Nat

/-- A single 32-bit MMIO store: `*addr = value` (value truncated to 32
bits as by the `static_cast<uint32_t>` in the source). -/
def mmioWrite32 (m : Mem) (a v : Nat) : Mem × List (Nat × Nat) :=
  (fun x => if x = a then v % 2 ^ 32 else m x, [(a, v % 2 ^ 32)])

/-- `MmioWrite(volatile uint64_t*, uint64_t)` from `pci_modern.cpp`:
the low 32 bits (`value & UINT32_MAX`) go to `words[0]`, then the high
32 bits (`value >> 32`) go to `words[1]`.  The returned trace lists the
two 32-bit writes in issue order. -/
def MmioWrite64 (m : Mem) (a v : Nat) : Mem × List (Nat × Nat) :=
  let w0 := mmioWrite32 m a (v % 2 ^ 32)
  let w1 := mmioWrite32 w0.1 (a + 1) ((v / 2 ^ 32) % 2 ^ 32)
  (w1.1, w0.2 ++ w1.2)

/-- `MmioRead(volatile uint64_t*, uint64_t*)` from `pci_modern.cpp`:
`val[0] = words[0]; val[1] = words[1]` — the value is reassembled from
the low word at `a` and the high word at `a + 1`. -/
def MmioRead64 (m : Mem) (a : Nat) : Nat :=
  m a % 2 ^ 32 + 2 ^ 32 * (m (a + 1) % 2 ^ 32)

end virtio

/-! ## C3: 64-bit split write/read round-trip -/

namespace virtio

/-- C3: the split 64-bit write primitive issues exactly two sequential
32-bit writes — low 32 bits of `v` to the lower-addressed word first,
then the high 32 bits — and reading the location back through the split
64-bit read primitive yields `v` again. -/
theorem c3_mmio64_split_roundtrip (m : Mem) (a v : Nat) (hv : v < 2 ^ 64) :
    (MmioWrite64 m a v).2 = [(a, v % 2 ^ 32), (a + 1, v / 2 ^ 32)] ∧
    MmioRead64 (MmioWrite64 m a v).1 a = v := by
  have hdiv : v / 2 ^ 32 < 2 ^ 32 := by
    apply Nat.div_lt_of_lt_mul
    calc v < 2 ^ 64 := hv
    _ = 2 ^ 32 * 2 ^ 32 := by norm_num
  constructor
  · simp [MmioWrite64, mmioWrite32, Nat.mod_eq_of_lt hdiv]
    exact hdiv
  · have ha : a + 1 ≠ a := by omega
    simp [MmioWrite64, mmioWrite32, MmioRead64, ha, Nat.mod_eq_of_lt hdiv]
    omega

/-- C3 witness: the round-trip and write-split at the three concrete
values 0, all-ones and 0x0000000100000002, at word address 10, from the
all-zero initial memory. -/
theorem c3_mmio64_split_roundtrip_witness :
    ((0 : Nat) < 2 ^ 64 ∧
      MmioRead64 (MmioWrite64 (fun _ => 0) 10 0).1 10 = 0) ∧
    ((2 ^ 64 - 1 : Nat) < 2 ^ 64 ∧
      MmioRead64 (MmioWrite64 (fun _ => 0) 10 (2 ^ 64 - 1)).1 10 = 2 ^ 64 - 1) ∧
    ((0x0000000100000002 : Nat) < 2 ^ 64 ∧
      (MmioWrite64 (fun _ => 0) 10 0x0000000100000002).2 =
        [(10, 2), (11, 1)] ∧
      MmioRead64 (MmioWrite64 (fun _ => 0) 10 0x0000000100000002).1 10 =
        0x0000000100000002) := by
  refine ⟨⟨by norm_num, (c3_mmio64_split_roundtrip (fun _ => 0) 10 0 (by norm_num)).2⟩,
    ⟨by norm_num, (c3_mmio64_split_roundtrip (fun _ => 0) 10 (2 ^ 64 - 1) (by norm_num)).2⟩,
    by norm_num,
    ?_,
    (c3_mmio64_split_roundtrip (fun _ => 0) 10 0x0000000100000002 (by norm_num)).2⟩
  have h := (c3_mmio64_split_roundtrip (fun _ => 0) 10 0x0000000100000002 (by norm_num)).1
  simpa using h

end virtio

/-! ## Modern backend state and capability discovery

Embedding of `PciModernBackend` (`pci_modern.cpp`): six BAR slots, the
resolved register addresses, `MapBar`, the five capability callbacks and
`Init`.  Pointers (`common_cfg_`, `isr_status_`) and `uintptr_t`
addresses (`device_cfg_`, `notify_base_`) are all modelled as `Nat`
addresses with 0 playing the role of `nullptr`, exactly as the source
compares them.  The bus services `pci_map_resource` and
`pci_config_read32` are external collaborators and enter as oracles:
`mapRes` yields, per BAR index, either a failure status or a (base
address, handle) pair, and `cfgRead32` is the raw configuration-space
32-bit read.  `MapBar` additionally reports how many times it invoked
the bus-mapping primitive, so that idempotence (C9) is observable.
-/

namespace virtio

/-- A vendor capability record as read by `ReadVirtioCap`. -/
structure VirtioPciCap where
  cap_vndr : Nat
  cap_next : Nat
  cap_len : Nat
  cfg_type : Nat
  bar : Nat
  offset : Nat
  length : Nat
deriving DecidableEq

/-- One entry of the `bar_[6]` array: `{ mmio_base, mmio_handle }`. -/
structure BarMapping where
  mmio_base : Nat
  mmio_handle : Nat
deriving DecidableEq

/-- The mutable fields of `PciModernBackend` touched during discovery. -/
structure ModernState where
  bar : List BarMapping
  notify_base_ : Nat
  isr_status_ : Nat
  device_cfg_ : Nat
  common_cfg_ : Nat
  notify_off_mul_ : Nat
deriving DecidableEq

/-- `bar_[b]` (out-of-range reads return the zero mapping; the source
bounds-checks before every access). -/
def ModernState.barAt (st : ModernState) (b : Nat) : BarMapping :=
  st.bar.getD b ⟨0, 0⟩

/-- The backend state at construction: all six BAR slots empty, all
register addresses unresolved. -/
def ModernState.initial : ModernState :=
  ⟨List.replicate 6 ⟨0, 0⟩, 0, 0, 0, 0, 0⟩

/-- `PciModernBackend::MapBar` (`pci_modern.cpp` lines 146-169): reject
an out-of-range index with `ZX_ERR_INVALID_ARGS`; if the slot already
holds a valid handle return `ZX_OK` without touching the bus; otherwise
call `pci_map_resource` (the `mapRes` oracle) and on success store the
base and handle.  The third component counts the `pci_map_resource`
invocations made by this call. -/
def PciModernBackend.MapBar (mapRes : Nat → Except Int (Nat × Nat))
    (st : ModernState) (b : Nat) : Int × ModernState × Nat :=
  if 6 ≤ b then (ZX_ERR_INVALID_ARGS, st, 0)
  else if (st.barAt b).mmio_handle ≠ ZX_HANDLE_INVALID then (ZX_OK, st, 0)
  else
    match mapRes b with
    | .error s => (s, st, 1)
    | .ok (base, handle) =>
      (ZX_OK, { st with bar := st.bar.set b ⟨base % 2 ^ 64, handle⟩ }, 1)

/-- `PciModernBackend::CommonCfgCallback`: map the capability's BAR and,
on success, resolve `common_cfg_` to `bar_[cap.bar].mmio_base + cap.offset`. -/
def PciModernBackend.CommonCfgCallback (mapRes : Nat → Except Int (Nat × Nat))
    (st : ModernState) (cap : VirtioPciCap) : ModernState :=
  let r := PciModernBackend.MapBar mapRes st cap.bar
  if r.1 ≠ ZX_OK then r.2.1
  else { r.2.1 with common_cfg_ := ((r.2.1.barAt cap.bar).mmio_base + cap.offset) % 2 ^ 64 }

/-- `PciModernBackend::NotifyCfgCallback`: map the BAR and resolve
`notify_base_`. -/
def PciModernBackend.NotifyCfgCallback (mapRes : Nat → Except Int (Nat × Nat))
    (st : ModernState) (cap : VirtioPciCap) : ModernState :=
  let r := PciModernBackend.MapBar mapRes st cap.bar
  if r.1 ≠ ZX_OK then r.2.1
  else { r.2.1 with notify_base_ := ((r.2.1.barAt cap.bar).mmio_base + cap.offset) % 2 ^ 64 }

/-- `PciModernBackend::IsrCfgCallback`: map the BAR and resolve
`isr_status_`. -/
def PciModernBackend.IsrCfgCallback (mapRes : Nat → Except Int (Nat × Nat))
    (st : ModernState) (cap : VirtioPciCap) : ModernState :=
  let r := PciModernBackend.MapBar mapRes st cap.bar
  if r.1 ≠ ZX_OK then r.2.1
  else { r.2.1 with isr_status_ := ((r.2.1.barAt cap.bar).mmio_base + cap.offset) % 2 ^ 64 }

/-- `PciModernBackend::DeviceCfgCallback`: map the BAR and resolve
`device_cfg_`. -/
def PciModernBackend.DeviceCfgCallback (mapRes : Nat → Except Int (Nat × Nat))
    (st : ModernState) (cap : VirtioPciCap) : ModernState :=
  let r := PciModernBackend.MapBar mapRes st cap.bar
  if r.1 ≠ ZX_OK then r.2.1
  else { r.2.1 with device_cfg_ := ((r.2.1.barAt cap.bar).mmio_base + cap.offset) % 2 ^ 64 }

/-- `PciModernBackend::PciCfgCallback`: presently unused, leaves the
state untouched. -/
def PciModernBackend.PciCfgCallback (st : ModernState) (_cap : VirtioPciCap) : ModernState :=
  st

/-- The enumeration loop of `PciModernBackend::Init` (lines 55-82): the
PCI bus layer's `pci_get_first_capability` / `pci_get_next_capability`
walk is an external collaborator, modelled as the finite list `caps` of
(config-space offset, capability record) pairs it yields.  Each record
is dispatched on `cfg_type`; for the notify capability the 32-bit
`notify_off_multiplier` immediately following the 16-byte capability
record is read first. -/
def PciModernBackend.InitLoop (mapRes : Nat → Except Int (Nat × Nat))
    (cfgRead32 : Nat → Nat) :
    List (Nat × VirtioPciCap) → ModernState → ModernState
  | [], st => st
  | (off, cap) :: rest, st =>
    let st' :=
      if cap.cfg_type = VIRTIO_PCI_CAP_COMMON_CFG then
        PciModernBackend.CommonCfgCallback mapRes st cap
      else if cap.cfg_type = VIRTIO_PCI_CAP_NOTIFY_CFG then
        PciModernBackend.NotifyCfgCallback mapRes
          { st with notify_off_mul_ := cfgRead32 (off + 16) % 2 ^ 32 } cap
      else if cap.cfg_type = VIRTIO_PCI_CAP_ISR_CFG then
        PciModernBackend.IsrCfgCallback mapRes st cap
      else if cap.cfg_type = VIRTIO_PCI_CAP_DEVICE_CFG then
        PciModernBackend.DeviceCfgCallback mapRes st cap
      else if cap.cfg_type = VIRTIO_PCI_CAP_PCI_CFG then
        PciModernBackend.PciCfgCallback st cap
      else st
    PciModernBackend.InitLoop mapRes cfgRead32 rest st'

/-- `PciModernBackend::Init` (lines 53-92): run the enumeration loop,
then fail with `ZX_ERR_BAD_STATE` if any of `common_cfg_`,
`isr_status_`, `device_cfg_`, `notify_base_` is still unresolved, and
return `ZX_OK` otherwise. -/
def PciModernBackend.Init (mapRes : Nat → Except Int (Nat × Nat))
    (cfgRead32 : Nat → Nat) (caps : List (Nat × VirtioPciCap))
    (st : ModernState) : Int × ModernState :=
  let st' := PciModernBackend.InitLoop mapRes cfgRead32 caps st
  if st'.common_cfg_ = 0 ∨ st'.isr_status_ = 0 ∨ st'.device_cfg_ = 0 ∨ st'.notify_base_ = 0
  then (ZX_ERR_BAD_STATE, st')
  else (ZX_OK, st')

/-- All four required register addresses are resolved (non-null), the
invariant `Init` is claimed to establish on success. -/
def ModernState.capsResolved (st : ModernState) : Prop :=
  st.common_cfg_ ≠ 0 ∧ st.isr_status_ ≠ 0 ∧ st.device_cfg_ ≠ 0 ∧ st.notify_base_ ≠ 0

instance (st : ModernState) : Decidable st.capsResolved := by
  unfold ModernState.capsResolved; infer_instance

end virtio

/-! ## C2: Init fails iff a required capability is unresolved -/

namespace virtio

/-- C2: after the capability list is exhausted, `Init` returns `ZX_OK`
exactly when all four of {common-config, ISR-status, device-config,
notify-base} are resolved, and otherwise returns the missing-capability
error `ZX_ERR_BAD_STATE` — for every map oracle, config space,
capability list and starting state. -/
theorem c2_init_requires_all_capabilities
    (mapRes : Nat → Except Int (Nat × Nat)) (cfgRead32 : Nat → Nat)
    (caps : List (Nat × VirtioPciCap)) (st : ModernState) :
    ((PciModernBackend.Init mapRes cfgRead32 caps st).1 = ZX_OK ↔
      (PciModernBackend.Init mapRes cfgRead32 caps st).2.capsResolved) ∧
    ((PciModernBackend.Init mapRes cfgRead32 caps st).1 = ZX_OK ∨
      (PciModernBackend.Init mapRes cfgRead32 caps st).1 = ZX_ERR_BAD_STATE) := by
  unfold PciModernBackend.Init
  dsimp only
  split
  next h =>
    refine ⟨⟨fun hk => ?_, fun hk => ?_⟩, Or.inr rfl⟩
    · have hk' : ZX_ERR_BAD_STATE = ZX_OK := hk
      exact absurd hk' (by decide)
    · simp only [ModernState.capsResolved] at hk
      tauto
  next h =>
    push_neg at h
    refine ⟨⟨fun _ => ?_, fun _ => rfl⟩, Or.inl rfl⟩
    simp only [ModernState.capsResolved]
    exact ⟨h.1, h.2.1, h.2.2.1, h.2.2.2⟩

end virtio

/-! ## C9: MapBar idempotence -/

namespace virtio

/-- C9: for a BAR index in range, once a first `MapBar` call has
succeeded (leaving a valid handle in the slot), a second call with the
same index returns `ZX_OK`, leaves the whole backend state — in
particular the stored base address — unchanged, and performs zero
`pci_map_resource` invocations. -/
theorem c9_mapbar_idempotent (mapRes : Nat → Except Int (Nat × Nat))
    (st : ModernState) (b : Nat) (hb : b < 6)
    (_hok : (PciModernBackend.MapBar mapRes st b).1 = ZX_OK)
    (hh : (((PciModernBackend.MapBar mapRes st b).2.1.barAt b)).mmio_handle ≠ ZX_HANDLE_INVALID) :
    PciModernBackend.MapBar mapRes ((PciModernBackend.MapBar mapRes st b).2.1) b =
      (ZX_OK, (PciModernBackend.MapBar mapRes st b).2.1, 0) := by
  have hnb : ¬ 6 ≤ b := by omega
  conv_lhs => rw [PciModernBackend.MapBar]
  simp [hnb, hh]

/-- C9 witness: a concrete first map of BAR 0 through an oracle that
returns base 0x3000 with handle 7 succeeds; the second call is then a
no-op returning the same state with zero bus-map invocations. -/
theorem c9_mapbar_idempotent_witness :
    ((0 : Nat) < 6 ∧
      (PciModernBackend.MapBar (fun i => Except.ok (0x3000 + 0x1000 * i, 7))
        ModernState.initial 0).1 = ZX_OK) ∧
    PciModernBackend.MapBar (fun i => Except.ok (0x3000 + 0x1000 * i, 7))
        ((PciModernBackend.MapBar (fun i => Except.ok (0x3000 + 0x1000 * i, 7))
          ModernState.initial 0).2.1) 0 =
      (ZX_OK, (PciModernBackend.MapBar (fun i => Except.ok (0x3000 + 0x1000 * i, 7))
          ModernState.initial 0).2.1, 0) := by
  refine ⟨⟨by norm_num, by decide⟩, ?_⟩
  exact c9_mapbar_idempotent (fun i => Except.ok (0x3000 + 0x1000 * i, 7))
    ModernState.initial 0 (by norm_num) (by decide) (by decide)

end virtio

/-! ## Pre-refactor capability walk (`Device::Bind`, device.cpp lines 91-147)

The walk starts at `pci_config_->capabilities_ptr` and follows
`cap_next` for at most 64 iterations ("only loop so many times in case
things out of whack").  Each iteration first rejects a pointer beyond
the configuration page with `ZX_ERR_INVALID_ARGS`, then reads the
capability record at the current offset and either stops (on
`cap_next == 0`) or follows the link.  The register-slot assignments
performed inside the loop body do not influence the walk's control
flow and are not part of this embedding.  Configuration space enters as
the oracle `cfg` mapping an offset to the capability record read there.
The result is (number of loop iterations executed, early-return status):
`some ZX_ERR_INVALID_ARGS` for an out-of-range pointer, `none` when the
loop ended by list termination or by the 64-iteration bound running out.
-/

namespace virtio

/-- The capability-walk loop of `Device::Bind` with explicit fuel (the
`for (int i = 0; i < 64; i++)` bound). -/
def Device.capWalkAux (cfg : Nat → VirtioPciCap) : Nat → Nat → Nat × Option Int
  | 0, _ => (0, none)
  | i + 1, off =>
    if PAGE_SIZE < off then (1, some ZX_ERR_INVALID_ARGS)
    else if (cfg off).cap_next = 0 then (1, none)
    else
      ((Device.capWalkAux cfg i (cfg off).cap_next).1 + 1,
        (Device.capWalkAux cfg i (cfg off).cap_next).2)

/-- The full capability walk of `Device::Bind`, starting from the
configuration header's capability pointer. -/
def Device.capWalk (cfg : Nat → VirtioPciCap) (capPtr : Nat) : Nat × Option Int :=
  Device.capWalkAux cfg 64 capPtr

/-- A deliberately cyclic capability list: the record at offset 0x40
links to 0x50 and every other record links back to 0x40, so `cap_next`
never reaches 0. -/
def cyclicCfg : Nat → VirtioPciCap := fun off =>
  { cap_vndr := 9, cap_next := if off = 0x40 then 0x50 else 0x40,
    cap_len := 16, cfg_type := 0, bar := 0, offset := 0, length := 0 }

/-- Bound and possible outcomes of the capability walk, by induction on
the fuel. -/
theorem capWalkAux_bound (cfg : Nat → VirtioPciCap) (i : Nat) :
    ∀ off : Nat, (Device.capWalkAux cfg i off).1 ≤ i ∧
      ((Device.capWalkAux cfg i off).2 = none ∨
        (Device.capWalkAux cfg i off).2 = some ZX_ERR_INVALID_ARGS) := by
  induction i with
  | zero => intro off; simp [Device.capWalkAux]
  | succ n ih =>
    intro off
    unfold Device.capWalkAux
    split
    next => simp
    next =>
      split
      next => simp
      next =>
        have h := ih ((cfg off).cap_next)
        exact ⟨by omega, h.2⟩

end virtio

/-! ## C1: bounded capability discovery -/

namespace virtio

/-- C1 counterexample: on the deliberately cyclic capability list the
`Device::Bind` walk runs exactly its 64-iteration bound and exits with
`none` — it terminates, but exceeding the bound is NOT reported as a
discovery failure (no error status is produced). -/
theorem c1_cyclic_walk_counterexample :
    Device.capWalk cyclicCfg 0x40 = (64, none) := by
  decide

/-- C1 (amended): for every configuration space and starting pointer —
including deliberately cyclic lists — the capability walk terminates
within the 64-iteration bound, and the only failure it ever reports is
`ZX_ERR_INVALID_ARGS` for an out-of-page capability pointer; exhausting
the bound exits the loop silently with no reported failure. -/
theorem c1_capwalk_bounded (cfg : Nat → VirtioPciCap) (capPtr : Nat) :
    (Device.capWalk cfg capPtr).1 ≤ 64 ∧
    ((Device.capWalk cfg capPtr).2 = none ∨
      (Device.capWalk cfg capPtr).2 = some ZX_ERR_INVALID_ARGS) :=
  capWalkAux_bound cfg 64 capPtr

end virtio

/-! ## C4: RingKick notification address -/

namespace virtio

/-- `PciModernBackend::RingKick` (`pci_modern.cpp` lines 237-250): read
the selected queue's 16-bit `queue_notify_off` from common config,
compute `notify_base_ + queue_notify_off * notify_off_mul_` — the
product is a C++ `uint32_t` multiplication, hence reduced modulo 2^32 —
and write the 16-bit ring index to that address.  The result is the
(address, value) pair of the notification write. -/
def PciModernBackend.RingKick (notify_base notify_off_mul queue_notify_off ring_index : Nat) :
    Nat × Nat :=
  ((notify_base + ((queue_notify_off % 2 ^ 16) * (notify_off_mul % 2 ^ 32)) % 2 ^ 32) % 2 ^ 64,
    ring_index % 2 ^ 16)

/-- C4 counterexample: the unqualified formula "notification address =
notify_base + queue_notify_off × notify_off_multiplier" fails when the
32-bit product overflows: with notify_base = 0x1000, multiplier = 2^31
and queue_notify_off = 2 the code notifies at 0x1000, not at
0x1000 + 2 × 2^31. -/
theorem c4_ringkick_overflow_counterexample :
    (PciModernBackend.RingKick 0x1000 (2 ^ 31) 2 0).1 = 0x1000 ∧
    (0x1000 : Nat) ≠ 0x1000 + 2 * 2 ^ 31 := by
  decide

/-- C4 (amended): whenever the 32-bit product does not overflow (and the
64-bit address sum does not wrap), RingKick writes the 16-bit ring index
to notify_base + queue_notify_off × notify_off_multiplier; in
particular, with queue_notify_off = 5 and multiplier = 4, RingKick(2)
writes 2 to notify_base + 20. -/
theorem c4_ringkick_notify_address
    (notify_base notify_off_mul queue_notify_off ring_index : Nat)
    (hq : queue_notify_off < 2 ^ 16) (hm : notify_off_mul < 2 ^ 32)
    (hmul : queue_notify_off * notify_off_mul < 2 ^ 32)
    (haddr : notify_base + queue_notify_off * notify_off_mul < 2 ^ 64)
    (hr : ring_index < 2 ^ 16) :
    PciModernBackend.RingKick notify_base notify_off_mul queue_notify_off ring_index =
      (notify_base + queue_notify_off * notify_off_mul, ring_index) := by
  unfold PciModernBackend.RingKick
  rw [Nat.mod_eq_of_lt hq, Nat.mod_eq_of_lt hm, Nat.mod_eq_of_lt hmul,
    Nat.mod_eq_of_lt haddr, Nat.mod_eq_of_lt hr]

/-- C4 witness: the claim's own concrete scenario — common-config
`queue_notify_off` reads 5, stored multiplier 4, `RingKick(2)` with
notify base 0x9000 — writes the 16-bit value 2 to address 0x9000 + 20. -/
theorem c4_ringkick_notify_address_witness :
    ((5 : Nat) < 2 ^ 16 ∧ (4 : Nat) < 2 ^ 32 ∧ 5 * 4 < 2 ^ 32 ∧
      (0x9000 : Nat) + 5 * 4 < 2 ^ 64 ∧ (2 : Nat) < 2 ^ 16) ∧
    PciModernBackend.RingKick 0x9000 4 5 2 = (0x9000 + 20, 2) :=
  ⟨⟨by norm_num, by norm_num, by norm_num, by norm_num, by norm_num⟩,
    c4_ringkick_notify_address 0x9000 4 5 2 (by norm_num) (by norm_num)
      (by norm_num) (by norm_num) (by norm_num)⟩

end virtio

/-! ## Ring setup write sequences (C5)

The common-config writes issued by ring setup, at the granularity of
one event per `MmioWrite` call (each carrying the field and the value
truncated to the field's width).
-/

namespace virtio

/-- The common-config fields written during ring setup. -/
inductive CfgField
  | queue_select
  | queue_size
  | queue_desc
  | queue_avail
  | queue_used
  | queue_enable
deriving DecidableEq

/-- Append one 16-bit common-config write to a trace. -/
def cfgWrite16 (tr : List (CfgField × Nat)) (f : CfgField) (v : Nat) :
    List (CfgField × Nat) :=
  tr ++ [(f, v % 2 ^ 16)]

/-- Append one 64-bit common-config write to a trace. -/
def cfgWrite64 (tr : List (CfgField × Nat)) (f : CfgField) (v : Nat) :
    List (CfgField × Nat) :=
  tr ++ [(f, v % 2 ^ 64)]

/-- `PciModernBackend::SetRing` (`pci_modern.cpp` lines 224-235),
line by line: queue_select, queue_size, queue_desc, queue_avail,
queue_used, then queue_desc a second time, then queue_enable := 1. -/
def PciModernBackend.SetRing (index count pa_desc pa_avail pa_used : Nat) :
    List (CfgField × Nat) :=
  let t1 := cfgWrite16 [] .queue_select index
  let t2 := cfgWrite16 t1 .queue_size count
  let t3 := cfgWrite64 t2 .queue_desc pa_desc
  let t4 := cfgWrite64 t3 .queue_avail pa_avail
  let t5 := cfgWrite64 t4 .queue_used pa_used
  let t6 := cfgWrite64 t5 .queue_desc pa_desc
  cfgWrite16 t6 .queue_enable 1

/-- `Device::SetRing`, modern (mmio) path (`device.cpp` pre-refactor
lines 397-404): queue_select, queue_size, the three 64-bit ring
addresses, then queue_enable := 1. -/
def Device.SetRingModern (index count pa_desc pa_avail pa_used : Nat) :
    List (CfgField × Nat) :=
  let t1 := cfgWrite16 [] .queue_select index
  let t2 := cfgWrite16 t1 .queue_size count
  let t3 := cfgWrite64 t2 .queue_desc pa_desc
  let t4 := cfgWrite64 t3 .queue_avail pa_avail
  let t5 := cfgWrite64 t4 .queue_used pa_used
  cfgWrite16 t5 .queue_enable 1

/-- C5: evaluated at SetRing(index=3, count=256, desc=0x1000,
avail=0x2000, used=0x3000), `PciModernBackend::SetRing` issues a second
`queue_desc` write between the `queue_used` write and the final
`queue_enable` write — seven writes, not the six the claim allows —
while the pre-refactor `Device::SetRing` modern path issues exactly the
claimed six-write sequence. -/
theorem c5_setring_write_sequence :
    PciModernBackend.SetRing 3 256 0x1000 0x2000 0x3000 =
      [(.queue_select, 3), (.queue_size, 256), (.queue_desc, 0x1000),
        (.queue_avail, 0x2000), (.queue_used, 0x3000), (.queue_desc, 0x1000),
        (.queue_enable, 1)] ∧
    Device.SetRingModern 3 256 0x1000 0x2000 0x3000 =
      [(.queue_select, 3), (.queue_size, 256), (.queue_desc, 0x1000),
        (.queue_avail, 0x2000), (.queue_used, 0x3000), (.queue_enable, 1)] := by
  decide

end virtio

/-! ## Device status operations (C6) -/

namespace virtio

/-- `PciModernBackend::DriverStatusAck` (`pci_modern.cpp` lines
267-274): read the 8-bit device status, OR in `VIRTIO_STATUS_ACKNOWLEDGE`
(only), write it back.  Returns the value written. -/
def PciModernBackend.DriverStatusAck (device_status : Nat) : Nat :=
  ((device_status % 2 ^ 8) ||| VIRTIO_STATUS_ACKNOWLEDGE) % 2 ^ 8

/-- `PciLegacyBackend::DriverStatusAck` (`pci_legacy.cpp` lines
102-106): `outp(addr, inp(addr) | VIRTIO_STATUS_ACKNOWLEDGE |
VIRTIO_STATUS_DRIVER)`.  Returns the value written. -/
def PciLegacyBackend.DriverStatusAck (device_status : Nat) : Nat :=
  ((device_status % 2 ^ 8) ||| VIRTIO_STATUS_ACKNOWLEDGE ||| VIRTIO_STATUS_DRIVER) % 2 ^ 8

/-- `Device::StatusAcknowledgeDriver` (`device.cpp` pre-refactor lines
433-441): OR `ACKNOWLEDGE | DRIVER` into the 8-bit status. -/
def Device.StatusAcknowledgeDriver (device_status : Nat) : Nat :=
  ((device_status % 2 ^ 8) ||| (VIRTIO_STATUS_ACKNOWLEDGE ||| VIRTIO_STATUS_DRIVER)) % 2 ^ 8

/-- C6: starting from device status 0 (the post-reset state), the Modern
backend's `DriverStatusAck` leaves only the ACKNOWLEDGE bit set — the
DRIVER bit stays clear, contradicting the claim — while the Legacy
backend and the pre-refactor `Device::StatusAcknowledgeDriver` both set
ACKNOWLEDGE and DRIVER. -/
theorem c6_driver_status_ack_bits :
    PciModernBackend.DriverStatusAck 0 = VIRTIO_STATUS_ACKNOWLEDGE ∧
    PciModernBackend.DriverStatusAck 0 &&& VIRTIO_STATUS_DRIVER = 0 ∧
    PciLegacyBackend.DriverStatusAck 0 &&& VIRTIO_STATUS_ACKNOWLEDGE ≠ 0 ∧
    PciLegacyBackend.DriverStatusAck 0 &&& VIRTIO_STATUS_DRIVER ≠ 0 ∧
    Device.StatusAcknowledgeDriver 0 &&& VIRTIO_STATUS_ACKNOWLEDGE ≠ 0 ∧
    Device.StatusAcknowledgeDriver 0 &&& VIRTIO_STATUS_DRIVER ≠ 0 := by
  decide

end virtio

/-! ## Feature negotiation and bring-up (C7) -/

namespace virtio

/-- The lifecycle calls a driver makes during bring-up. -/
inductive LifecycleStep
  | reset
  | ackDriver
  | featuresOK
  | driverOK
deriving DecidableEq

/-- `Device::StatusFeaturesOK` (`device.cpp` pre-refactor lines
463-485), mmio path: OR `VIRTIO_STATUS_FEATURES_OK` into the status
register, then re-read it and return `ZX_ERR_NOT_SUPPORTED` if the
device did not latch the bit, `ZX_OK` otherwise.  The device's reaction
to the status write is the environment; `latch` gives the value the
volatile status register holds when re-read after the write.  Returns
the zircon status and the re-read register value. -/
def Device.StatusFeaturesOK (latch : Nat → Nat) (device_status : Nat) : Int × Nat :=
  let written := ((device_status % 2 ^ 8) ||| VIRTIO_STATUS_FEATURES_OK) % 2 ^ 8
  let reread := latch written % 2 ^ 8
  (if reread &&& VIRTIO_STATUS_FEATURES_OK = 0 then ZX_ERR_NOT_SUPPORTED else ZX_OK,
    reread)

/-- `Device::StatusDriverOK` (`device.cpp` pre-refactor lines 487-495):
OR `VIRTIO_STATUS_DRIVER_OK` into the 8-bit status. -/
def Device.StatusDriverOK (device_status : Nat) : Nat :=
  ((device_status % 2 ^ 8) ||| VIRTIO_STATUS_DRIVER_OK) % 2 ^ 8

/-- Modelled from the spec: the bring-up sequence of a concrete driver
(the callers of the lifecycle methods are device-class drivers not under
src/): "RESET → ACKNOWLEDGE+DRIVER → (feature negotiation, external) →
FEATURES_OK with a mandatory re-read confirming acceptance (rejection is
reported as not-supported and aborts bring-up) → DRIVER_OK".  Returns
the bring-up result and the trace of lifecycle calls made. -/
def Device.bringUp (latch : Nat → Nat) : Int × List LifecycleStep :=
  let s2 := Device.StatusAcknowledgeDriver 0
  let r := Device.StatusFeaturesOK latch s2
  if r.1 ≠ ZX_OK then (r.1, [.reset, .ackDriver, .featuresOK])
  else (ZX_OK, [.reset, .ackDriver, .featuresOK, .driverOK])

/-- `StatusFeaturesOK` never returns anything other than `ZX_OK` or
`ZX_ERR_NOT_SUPPORTED`. -/
theorem statusFeaturesOK_result_cases (latch : Nat → Nat) (s : Nat) :
    (Device.StatusFeaturesOK latch s).1 = ZX_OK ∨
    (Device.StatusFeaturesOK latch s).1 = ZX_ERR_NOT_SUPPORTED := by
  unfold Device.StatusFeaturesOK
  dsimp only
  split
  · right; rfl
  · left; rfl

/-- C7: `StatusFeaturesOK` returns either `ZX_OK` or
`ZX_ERR_NOT_SUPPORTED`; it returns the not-supported error exactly when
the re-read status shows the FEATURES_OK bit clear; and when bring-up
sees the error it aborts, so the DRIVER_OK step is never performed. -/
theorem c7_features_ok_reread (latch : Nat → Nat) (device_status : Nat) :
    ((Device.StatusFeaturesOK latch device_status).1 = ZX_OK ∨
      (Device.StatusFeaturesOK latch device_status).1 = ZX_ERR_NOT_SUPPORTED) ∧
    ((Device.StatusFeaturesOK latch device_status).1 = ZX_ERR_NOT_SUPPORTED ↔
      (Device.StatusFeaturesOK latch device_status).2 &&& VIRTIO_STATUS_FEATURES_OK = 0) ∧
    ((Device.bringUp latch).1 ≠ ZX_OK →
      (Device.bringUp latch).1 = ZX_ERR_NOT_SUPPORTED ∧
        LifecycleStep.driverOK ∉ (Device.bringUp latch).2) := by
  refine ⟨statusFeaturesOK_result_cases latch device_status, ?_, ?_⟩
  · unfold Device.StatusFeaturesOK
    dsimp only
    split
    next h => exact ⟨fun _ => h, fun _ => rfl⟩
    next h =>
      constructor
      · intro hk
        have hk' : ZX_OK = ZX_ERR_NOT_SUPPORTED := hk
        exact absurd hk' (by decide)
      · intro hk; exact absurd hk h
  · unfold Device.bringUp
    dsimp only
    split
    next h =>
      intro _
      constructor
      · rcases statusFeaturesOK_result_cases latch (Device.StatusAcknowledgeDriver 0) with hc | hc
        · exact absurd hc h
        · exact hc
      · simp
    next h =>
      intro hk
      exact absurd rfl hk

end virtio

/-! ## C7 witness -/

namespace virtio

/-- C7 witness: a simulated device that refuses to latch FEATURES_OK
(it clears bit 3 of every status write); bring-up reports not-supported
and the DRIVER_OK step never appears in the call trace. -/
theorem c7_features_ok_reread_witness :
    (Device.bringUp (fun v => v &&& 0xF7)).1 ≠ ZX_OK ∧
    (Device.bringUp (fun v => v &&& 0xF7)).1 = ZX_ERR_NOT_SUPPORTED ∧
    LifecycleStep.driverOK ∉ (Device.bringUp (fun v => v &&& 0xF7)).2 :=
  ⟨by decide, (c7_features_ok_reread (fun v => v &&& 0xF7) 0).2.2 (by decide)⟩

end virtio

/-! ## Interrupt service loop (C8)

One iteration of `Device::IrqWorker` (`device.cpp` post-refactor,
lines 543-582), as the ordered trace of its observable actions: the
`IsrStatus()` read, the `zx_interrupt_complete` call, and the two
driver callbacks.  `waitOk` / `completeOk` give the results of the
external `zx_interrupt_wait` / `zx_interrupt_complete` calls; a failed
wait skips the whole body, a failed completion skips the callbacks, a
zero status is a spurious wake and skips the callbacks, and otherwise
the queue-interrupt and config-change bits are tested independently.
-/

namespace virtio

/-- The observable actions of one `IrqWorker` iteration, in order. -/
inductive IrqAction
  | readIsr (status : Nat)
  | completeIrq
  | ringUpdate
  | configChange
deriving DecidableEq

/-- One iteration of the `Device::IrqWorker` loop body, given the wait
result, the ISR status read, and the completion result. -/
def Device.irqIteration (waitOk : Bool) (isr : Nat) (completeOk : Bool) :
    List IrqAction :=
  if waitOk = false then []
  else
    let pre := [IrqAction.readIsr isr, IrqAction.completeIrq]
    if completeOk = false then pre
    else if isr = 0 then pre
    else
      pre ++ (if isr &&& VIRTIO_ISR_QUEUE_INT ≠ 0 then [IrqAction.ringUpdate] else [])
          ++ (if isr &&& VIRTIO_ISR_DEV_CFG_INT ≠ 0 then [IrqAction.configChange] else [])

/-- C8: in one `IrqWorker` iteration the ISR status is read before
interrupt completion is acknowledged (they are the first two actions,
in that order); a wake whose status has both the queue-interrupt bit
and the config-change bit set runs the ring-update callback exactly
once and the config-change callback exactly once; a wake with status
zero runs neither. -/
theorem c8_irq_iteration (isr : Nat) :
    (Device.irqIteration true isr true).take 2 =
      [IrqAction.readIsr isr, IrqAction.completeIrq] ∧
    (isr &&& VIRTIO_ISR_QUEUE_INT ≠ 0 → isr &&& VIRTIO_ISR_DEV_CFG_INT ≠ 0 →
      (Device.irqIteration true isr true).count IrqAction.ringUpdate = 1 ∧
      (Device.irqIteration true isr true).count IrqAction.configChange = 1) ∧
    ((Device.irqIteration true 0 true).count IrqAction.ringUpdate = 0 ∧
      (Device.irqIteration true 0 true).count IrqAction.configChange = 0) := by
  refine ⟨?_, ?_, by decide⟩
  · unfold Device.irqIteration
    by_cases h0 : isr = 0
    · simp [h0]
    · by_cases h1 : isr &&& VIRTIO_ISR_QUEUE_INT ≠ 0 <;>
        by_cases h2 : isr &&& VIRTIO_ISR_DEV_CFG_INT ≠ 0 <;>
        simp [h0, h1, h2]
  · intro hq hc
    have hz : isr ≠ 0 := by
      intro h0
      rw [h0] at hq
      exact hq (by decide)
    unfold Device.irqIteration
    simp [hz, hq, hc]

/-- C8 witness: a wake with status `QUEUE_INT ||| DEV_CFG_INT` (= 3)
fires each callback exactly once. -/
theorem c8_irq_iteration_witness :
    ((3 : Nat) &&& VIRTIO_ISR_QUEUE_INT ≠ 0 ∧ (3 : Nat) &&& VIRTIO_ISR_DEV_CFG_INT ≠ 0) ∧
    (Device.irqIteration true 3 true).count IrqAction.ringUpdate = 1 ∧
    (Device.irqIteration true 3 true).count IrqAction.configChange = 1 :=
  ⟨⟨by decide, by decide⟩, (c8_irq_iteration 3).2.1 (by decide) (by decide)⟩

end virtio

/-! ## ISR status reads (C10) -/

namespace virtio

/-- `PciModernBackend::IsrStatus` (`pci_modern.cpp` lines 276-278): the
32-bit ISR register value masked to the queue-interrupt and
config-change bits. -/
def PciModernBackend.IsrStatus (raw : Nat) : Nat :=
  (raw % 2 ^ 32) &&& (VIRTIO_ISR_QUEUE_INT ||| VIRTIO_ISR_DEV_CFG_INT)

/-- `PciLegacyBackend::IsrStatus` (`pci_legacy.cpp` lines 114-118),
translated with the source's parenthesization kept exactly: the mask
`& (VIRTIO_ISR_QUEUE_INT | VIRTIO_ISR_DEV_CFG_INT)` is applied inside
the `inp(...)` argument — to the `uint16_t` port number, not to the
value read — so the call reads port `(bar0_base_ +
VIRTIO_PCI_ISR_STATUS) & 3` and returns the raw 8-bit value unmasked.
`inp` is the external port-I/O read oracle. -/
def PciLegacyBackend.IsrStatus (inp : Nat → Nat) (bar0_base : Nat) : Nat :=
  inp (((bar0_base + VIRTIO_PCI_ISR_STATUS) % 2 ^ 16) &&&
    (VIRTIO_ISR_QUEUE_INT ||| VIRTIO_ISR_DEV_CFG_INT)) % 2 ^ 8

/-- C10: the Modern backend's `IsrStatus` is always confined to the two
interrupt bits (its value is below 4), but the Legacy backend's is not:
with an ISR port whose register reads 4 (a bit outside QUEUE_INT and
DEV_CFG_INT), `PciLegacyBackend::IsrStatus` returns 4 — a nonzero value
with both claimed-possible bits clear — because its mask lands on the
port address instead of the value read. -/
theorem c10_isr_status_two_bits :
    (∀ raw : Nat, PciModernBackend.IsrStatus raw < 4) ∧
    PciLegacyBackend.IsrStatus (fun _ => 4) 0x1000 = 4 ∧
    (4 : Nat) &&& (VIRTIO_ISR_QUEUE_INT ||| VIRTIO_ISR_DEV_CFG_INT) = 0 ∧
    (4 : Nat) ≠ 0 := by
  refine ⟨?_, by decide, by decide, by decide⟩
  intro raw
  unfold PciModernBackend.IsrStatus
  have hmask : VIRTIO_ISR_QUEUE_INT ||| VIRTIO_ISR_DEV_CFG_INT = 3 := by decide
  rw [hmask]
  exact lt_of_le_of_lt Nat.and_le_right (by norm_num)

end virtio
